import Mathlib

/-!
Formal model of the Mifflin-St Jeor weight-loss calculator, embedding the
two Python scripts `estimateDaysToGoalWeight.py` and
`estimateLossFromDiet.py`.

Modelling conventions.  Real-valued quantities are rationals.  Python
`int()` on a float is `pytrunc` (truncation toward zero).  The activity
multiplier dictionary lookup is an `Option`-valued function, `none`
modelling the `KeyError` raised on an unrecognized key; every function
that performs such a lookup is therefore `Option`-valued, `none` meaning
the Python call raises.  The unbounded `while` loop of
`calculate_days_to_goal_weight` is modelled with an explicit fuel
parameter: `none` means the loop was still running after `fuel`
iterations, so every `some` result is a result the Python loop actually
produces.
-/

namespace Mifflin

/-- Activity multiplier table of `calculate_TDEE` (both scripts, identical);
a lookup of an unrecognized key is `none`, modelling the `KeyError`. -/
def activity_multipliers (activity_level : String) : Option ℚ :=
  if activity_level = "sedentary" then some 1.2
  else if activity_level = "lightly active" then some 1.375
  else if activity_level = "moderately active" then some 1.55
  else if activity_level = "very active" then some 1.725
  else if activity_level = "extra active" then some 1.9
  else none

/-- The five recognized activity levels, in table order. -/
def valid_activity_levels : List String :=
  ["sedentary", "lightly active", "moderately active", "very active", "extra active"]

/-- Python `str.lower()`: lower-case every character. -/
def pylower (s : String) : String :=
  String.mk (s.data.map Char.toLower)

/-- Basal metabolic rate: the `BMR` local variable of `calculate_TDEE`.
The source tests `sex.lower() == 'male'` and otherwise takes the female
branch, whatever the string is. -/
def BMR (sex : String) (weight height : ℚ) (age : ℤ) : ℚ :=
  if pylower sex = "male" then
    10 * weight / 2.2 + 6.25 * height * 2.54 - 5 * (age : ℚ) + 5
  else
    10 * weight / 2.2 + 6.25 * height * 2.54 - 5 * (age : ℚ) - 161

/-- Model of `calculate_TDEE` (lines 3-30 of `estimateDaysToGoalWeight.py`,
duplicated verbatim in `estimateLossFromDiet.py`). -/
def calculate_TDEE (sex : String) (weight height : ℚ) (age : ℤ)
    (activity_level : String) : Option ℚ :=
  (activity_multipliers activity_level).map (fun m => BMR sex weight height age * m)

/-- Python `int()` applied to a float: truncation toward zero. -/
def pytrunc (q : ℚ) : ℤ := if 0 ≤ q then ⌊q⌋ else ⌈q⌉

/-- Length of Python `range(0, stop, 500)` (empty when `stop ≤ 0`). -/
def rangeLen (stop : ℤ) : ℕ := (stop.toNat + 499) / 500

/-- Candidate intake list built on line 51 of `estimateDaysToGoalWeight.py`:
`[initial_TDEE - i for i in range(0, int(initial_TDEE) + 1, 500)] + [0]`. -/
def daily_calories_scenarios (T : ℚ) : List ℚ :=
  (List.range (rangeLen (pytrunc T + 1))).map (fun k : ℕ => T - 500 * (k : ℚ)) ++ [0]

/-- The per-candidate `while current_weight > goal_weight` loop of
`calculate_days_to_goal_weight` (lines 57-65), with fuel.  State is
(current weight, day counter); the result is the state at loop exit,
`none` when the loop is still running after `fuel` iterations (or on a
`KeyError` from the inner `calculate_TDEE`, impossible once the initial
TDEE lookup of the same activity level succeeded). -/
def goalLoop (sex : String) (height : ℚ) (age : ℤ) (activity_level : String)
    (goal_weight daily_calories : ℚ) : ℕ → ℚ → ℕ → Option (ℚ × ℕ)
  | 0, _, _ => none
  | fuel + 1, w, d =>
    if goal_weight < w then
      match calculate_TDEE sex w height age activity_level with
      | none => none
      | some T =>
        if T - daily_calories ≤ 0 then some (w, d)
        else goalLoop sex height age activity_level goal_weight daily_calories
          fuel (w - (T - daily_calories) / 3500) (d + 1)
    else some (w, d)

/-- Contribution of one candidate intake to the scenario list: run the
loop from `start_weight`, then (lines 67-68) record
`(int(daily_calories), days)` exactly when the final weight is at or
below the goal, and nothing otherwise. -/
def candidateRecord (sex : String) (height : ℚ) (age : ℤ) (activity_level : String)
    (goal_weight daily_calories : ℚ) (fuel : ℕ) (start_weight : ℚ) :
    Option (List (ℤ × ℕ)) :=
  (goalLoop sex height age activity_level goal_weight daily_calories
      fuel start_weight 0).map
    (fun r => if r.1 ≤ goal_weight then [(pytrunc daily_calories, r.2)] else [])

/-- The `for daily_calories in daily_calories_scenarios` loop (lines 53-68),
concatenating each candidate's contribution in candidate order. -/
def scenariosAux (sex : String) (height : ℚ) (age : ℤ) (activity_level : String)
    (goal_weight : ℚ) (fuel : ℕ) (start_weight : ℚ) :
    List ℚ → Option (List (ℤ × ℕ))
  | [] => some []
  | c :: cs =>
    match candidateRecord sex height age activity_level goal_weight c fuel start_weight with
    | none => none
    | some l =>
      match scenariosAux sex height age activity_level goal_weight fuel start_weight cs with
      | none => none
      | some rest => some (l ++ rest)

/-- Model of `calculate_days_to_goal_weight` (lines 32-70), with fuel
bounding each candidate's `while` loop. -/
def calculate_days_to_goal_weight (start_weight goal_weight : ℚ) (sex : String)
    (height : ℚ) (age : ℤ) (activity_level : String) (fuel : ℕ) :
    Option (List (ℤ × ℕ)) :=
  match calculate_TDEE sex start_weight height age activity_level with
  | none => none
  | some initial_TDEE =>
    scenariosAux sex height age activity_level goal_weight fuel start_weight
      (daily_calories_scenarios initial_TDEE)

/-- The `for day in range(1, days + 1)` loop of `calculate_weight_loss`
(lines 175-181 of `estimateLossFromDiet.py`): from the current weight,
produce the list of the next `n` recorded weights. -/
def wlAux (sex : String) (height : ℚ) (age : ℤ) (activity_level : String)
    (daily_intake : ℚ) : ℕ → ℚ → Option (List ℚ)
  | 0, _ => some []
  | n + 1, w =>
    match calculate_TDEE sex w height age activity_level with
    | none => none
    | some T =>
      match wlAux sex height age activity_level daily_intake n
          (max 0 (w - (T - daily_intake) / 3500)) with
      | none => none
      | some rest => some (max 0 (w - (T - daily_intake) / 3500) :: rest)

/-- Model of `calculate_weight_loss` (lines 157-182 of
`estimateLossFromDiet.py`).  `days.toNat` is the number of iterations of
`range(1, days + 1)`, which is empty when `days ≤ 0`. -/
def calculate_weight_loss (sex : String) (start_weight height : ℚ) (age : ℤ)
    (activity_level : String) (daily_intake : ℚ) (days : ℤ) : Option (List ℚ) :=
  (wlAux sex height age activity_level daily_intake days.toNat start_weight).map
    (fun rest => start_weight :: rest)

/-- Modelled from the spec: the candidate sequence of section 4.2,
"candidates = initial_expenditure − 500·k for k = 0,1,2,... while the
value stays ≥ 0, then append a final candidate of exactly 0". -/
def specCandidateIntakes (T : ℚ) : List ℚ :=
  (List.range (if 0 ≤ T then (⌊T / 500⌋).toNat + 1 else 0)).map
    (fun k : ℕ => T - 500 * (k : ℚ)) ++ [0]

/-- Modelled from the spec: "round(candidate) to integer" — Python's
`round`, which rounds halves to the nearest even integer. -/
def spec_round (q : ℚ) : ℤ :=
  if q - ⌊q⌋ < 1 / 2 then ⌊q⌋
  else if 1 / 2 < q - ⌊q⌋ then ⌊q⌋ + 1
  else if ⌊q⌋ % 2 = 0 then ⌊q⌋ else ⌊q⌋ + 1

/-! ## Evaluation helpers -/

theorem pylower_male : pylower "male" = "male" := rfl

theorem pylower_female : pylower "female" = "female" := rfl

theorem pylower_dragon : pylower "dragon" = "dragon" := rfl

/-- Every recognized activity level has a strictly positive multiplier. -/
theorem activity_multipliers_mem (a : String) (ha : a ∈ valid_activity_levels) :
    ∃ m : ℚ, activity_multipliers a = some m ∧ 0 < m := by
  fin_cases ha <;> exact ⟨_, rfl, by norm_num⟩

/-- On a recognized activity level, `calculate_TDEE` succeeds and returns
the BMR scaled by the (positive) multiplier. -/
theorem calculate_TDEE_total (sex : String) (w h : ℚ) (age : ℤ) (a : String)
    (ha : a ∈ valid_activity_levels) :
    ∃ m : ℚ, 0 < m ∧ calculate_TDEE sex w h age a = some (BMR sex w h age * m) := by
  obtain ⟨m, hm, hpos⟩ := activity_multipliers_mem a ha
  exact ⟨m, hpos, by simp [calculate_TDEE, hm]⟩

/-! ## Claim C3 -/

/-- C3 (amended): for every valid BodyProfile (sex in male/female, positive
height, positive integer age, recognized activity level) and positive
weight, `calculate_TDEE` succeeds, and its value is strictly positive
whenever the Mifflin-St Jeor BMR is positive; positivity does not hold
unconditionally. -/
theorem C3_TDEE_pos_of_BMR_pos (sex : String) (w h : ℚ) (age : ℤ) (a : String)
    (hsex : sex ∈ ["male", "female"]) (hw : 0 < w) (hh : 0 < h) (hage : 0 < age)
    (ha : a ∈ valid_activity_levels) (hB : 0 < BMR sex w h age) :
    ∃ t : ℚ, calculate_TDEE sex w h age a = some t ∧ 0 < t := by
  obtain ⟨m, hpos, heq⟩ := calculate_TDEE_total sex w h age a ha
  exact ⟨_, heq, mul_pos hB hpos⟩

theorem C3_witness :
    ∃ t : ℚ, calculate_TDEE "male" 220 70 30 "sedentary" = some t ∧ 0 < t :=
  C3_TDEE_pos_of_BMR_pos "male" 220 70 30 "sedentary" (by decide) (by norm_num)
    (by norm_num) (by norm_num) (by decide)
    (by rw [BMR, if_pos pylower_male]; norm_num)

/-- C3 fails as stated: the profile (female, height 1, age 100, sedentary)
is a valid BodyProfile and the weight 1 is positive, yet `calculate_TDEE`
returns a strictly negative value. -/
theorem C3_counterexample :
    ("female" ∈ ["male", "female"] ∧ (0 : ℚ) < 1 ∧ (0 : ℤ) < 100 ∧
      "sedentary" ∈ valid_activity_levels) ∧
    calculate_TDEE "female" 1 1 100 "sedentary" = some (-169113 / 220) ∧
    ((-169113 / 220 : ℚ) < 0) := by
  refine ⟨by decide, ?_, by norm_num⟩
  norm_num [calculate_TDEE, activity_multipliers, BMR, pylower_female]
  decide

/-! ## Claim C9 -/

/-- C9 (amended): there is no construction-time validation.  An
unrecognized sex does not fail at all: any sex whose lower-casing is not
"male" takes the female branch of the BMR formula, so the call behaves
exactly like a "female" profile.  An unrecognized activity level makes
`calculate_TDEE` itself fail (the dictionary `KeyError`, modelled as
`none`) — deep inside the energy model, since no BodyProfile constructor
exists. -/
theorem C9_validation_inside_model :
    (∀ (sex : String) (w h : ℚ) (age : ℤ) (a : String), pylower sex ≠ "male" →
      calculate_TDEE sex w h age a = calculate_TDEE "female" w h age a) ∧
    (∀ (sex : String) (w h : ℚ) (age : ℤ) (a : String), a ∉ valid_activity_levels →
      calculate_TDEE sex w h age a = none) := by
  constructor
  · intro sex w h age a hsex
    have hB : BMR sex w h age = BMR "female" w h age := by
      rw [BMR, BMR, if_neg hsex, if_neg (by decide)]
    rw [calculate_TDEE, calculate_TDEE, hB]
  · intro sex w h age a ha
    simp only [valid_activity_levels, List.mem_cons, List.not_mem_nil, or_false,
      not_or] at ha
    obtain ⟨h1, h2, h3, h4, h5⟩ := ha
    simp [calculate_TDEE, activity_multipliers, h1, h2, h3, h4, h5]

theorem C9_witness :
    calculate_TDEE "dragon" 220 70 30 "sedentary" =
      calculate_TDEE "female" 220 70 30 "sedentary" ∧
    calculate_TDEE "male" 220 70 30 "unknown" = none :=
  ⟨C9_validation_inside_model.1 "dragon" 220 70 30 "sedentary" (by decide),
   C9_validation_inside_model.2 "male" 220 70 30 "unknown" (by decide)⟩

/-- C9 fails as stated: with the unrecognized sex "dragon" the program
does not fail at all — `calculate_TDEE` silently returns the female-branch
value. -/
theorem C9_counterexample :
    calculate_TDEE "dragon" 220 70 30 "sedentary" = some (21603 / 10) := by
  norm_num [calculate_TDEE, activity_multipliers, BMR, pylower_dragon]
  decide

/-! ## Trajectory simulator lemmas -/

/-- Every weight produced by the daily loop is clamped at zero. -/
theorem wlAux_nonneg (sex : String) (height : ℚ) (age : ℤ) (act : String)
    (intake : ℚ) :
    ∀ (n : ℕ) (w : ℚ) (l : List ℚ), wlAux sex height age act intake n w = some l →
      ∀ x ∈ l, 0 ≤ x := by
  intro n
  induction n with
  | zero =>
    intro w l hl x hx
    simp only [wlAux, Option.some.injEq] at hl
    subst hl
    simp at hx
  | succ n ih =>
    intro w l hl x hx
    cases hT : calculate_TDEE sex w height age act with
    | none => simp [wlAux, hT] at hl
    | some T =>
      cases hr : wlAux sex height age act intake n (max 0 (w - (T - intake) / 3500)) with
      | none => simp [wlAux, hT, hr] at hl
      | some rest =>
        simp only [wlAux, hT, hr, Option.some.injEq] at hl
        subst hl
        rcases List.mem_cons.mp hx with rfl | hx2
        · exact le_max_left _ _
        · exact ih _ _ hr x hx2

/-- The daily loop realizes the clamped deficit/3500 update between every
two consecutive recorded weights. -/
theorem wlAux_chain (sex : String) (height : ℚ) (age : ℤ) (act : String)
    (intake : ℚ) :
    ∀ (n : ℕ) (w : ℚ) (l : List ℚ), wlAux sex height age act intake n w = some l →
      List.Chain'
        (fun w1 w2 => ∃ T, calculate_TDEE sex w1 height age act = some T ∧
          w2 = max 0 (w1 - (T - intake) / 3500)) (w :: l) := by
  intro n
  induction n with
  | zero =>
    intro w l hl
    simp only [wlAux, Option.some.injEq] at hl
    subst hl
    exact List.chain'_singleton w
  | succ n ih =>
    intro w l hl
    cases hT : calculate_TDEE sex w height age act with
    | none => simp [wlAux, hT] at hl
    | some T =>
      cases hr : wlAux sex height age act intake n (max 0 (w - (T - intake) / 3500)) with
      | none => simp [wlAux, hT, hr] at hl
      | some rest =>
        simp only [wlAux, hT, hr, Option.some.injEq] at hl
        subst hl
        exact List.chain'_cons.mpr ⟨⟨T, hT, rfl⟩, ih _ _ hr⟩

/-- On a recognized activity level the daily loop always succeeds and
produces exactly `n` further records. -/
theorem wlAux_total (sex : String) (height : ℚ) (age : ℤ) (act : String)
    (intake : ℚ) (ha : act ∈ valid_activity_levels) :
    ∀ (n : ℕ) (w : ℚ), ∃ l, wlAux sex height age act intake n w = some l ∧
      l.length = n := by
  intro n
  induction n with
  | zero => exact fun w => ⟨[], rfl, rfl⟩
  | succ n ih =>
    intro w
    obtain ⟨m, hpos, heq⟩ := calculate_TDEE_total sex w height age act ha
    obtain ⟨l, hl, hlen⟩ :=
      ih (max 0 (w - (BMR sex w height age * m - intake) / 3500))
    exact ⟨max 0 (w - (BMR sex w height age * m - intake) / 3500) :: l,
      by simp [wlAux, heq, hl], by simp [hlen]⟩

/-! ## Claim C1 -/

/-- C1 (amended): every simulated day of either simulator recomputes the
energy expenditure from the current weight (the weight at the end of the
previous day) and applies the update built from (expenditure − intake) /
3500 with the constant fixed at 3500 — exactly `w - (TDEE(w) - intake) /
3500` in the goal simulator (which aborts a day whose deficit is
non-positive), and clamped, `max 0 (w - (TDEE(w) - intake) / 3500)`, in
the trajectory simulator, so on a day where the clamp binds the realized
loss is smaller than deficit/3500. -/
theorem C1_daily_update_rule :
    (∀ (sex : String) (height : ℚ) (age : ℤ) (act : String) (goal c : ℚ)
        (fuel : ℕ) (w : ℚ) (d : ℕ) (T : ℚ),
      goal < w → calculate_TDEE sex w height age act = some T → 0 < T - c →
      goalLoop sex height age act goal c (fuel + 1) w d =
        goalLoop sex height age act goal c fuel (w - (T - c) / 3500) (d + 1)) ∧
    (∀ (sex : String) (sw height : ℚ) (age : ℤ) (act : String) (intake : ℚ)
        (days : ℤ) (L : List ℚ),
      calculate_weight_loss sex sw height age act intake days = some L →
      List.Chain'
        (fun w1 w2 => ∃ T, calculate_TDEE sex w1 height age act = some T ∧
          w2 = max 0 (w1 - (T - intake) / 3500)) L) := by
  constructor
  · intro sex height age act goal c fuel w d T hgw hT hpos
    simp only [goalLoop, if_pos hgw, hT, if_neg (not_le.mpr hpos)]
  · intro sex sw height age act intake days L hL
    simp only [calculate_weight_loss, Option.map_eq_some'] at hL
    obtain ⟨l, hl, rfl⟩ := hL
    exact wlAux_chain sex height age act intake _ sw l hl

theorem C1_witness :
    goalLoop "male" 70 30 "sedentary" 219 1000 3 220 0 =
      goalLoop "male" 70 30 "sedentary" 219 1000 2 (220 - (4719 / 2 - 1000) / 3500) 1 ∧
    List.Chain'
      (fun w1 w2 => ∃ T, calculate_TDEE "male" w1 70 30 "sedentary" = some T ∧
        w2 = max 0 (w1 - (T - 2000) / 3500)) [220, 1539281 / 7000] := by
  constructor
  · exact C1_daily_update_rule.1 "male" 70 30 "sedentary" 219 1000 2 220 0 (4719 / 2)
      (by norm_num)
      (by norm_num [calculate_TDEE, activity_multipliers, BMR, pylower_male])
      (by norm_num)
  · exact C1_daily_update_rule.2 "male" 220 70 30 "sedentary" 2000 1 [220, 1539281 / 7000]
      (by norm_num [calculate_weight_loss, wlAux, calculate_TDEE,
        activity_multipliers, BMR, pylower_male])

/-- C1 fails as stated: in the trajectory simulator with start weight 1/5
and intake 0, day one clamps at zero, so the day's realized weight loss
(1/5) is not (expenditure − intake) / 3500 = 25533/77000. -/
theorem C1_counterexample :
    calculate_weight_loss "male" (1 / 5) 70 30 "sedentary" 0 1 = some [1 / 5, 0] ∧
    calculate_TDEE "male" (1 / 5) 70 30 "sedentary" = some (25533 / 22) ∧
    (1 / 5 : ℚ) - 0 ≠ (25533 / 22 - 0) / 3500 := by
  refine ⟨?_, ?_, by norm_num⟩
  · norm_num [calculate_weight_loss, wlAux, calculate_TDEE,
      activity_multipliers, BMR, pylower_male]
  · norm_num [calculate_TDEE, activity_multipliers, BMR, pylower_male]

/-! ## Claim C7 -/

/-- C7 (amended): in the trajectory returned by `calculate_weight_loss`,
every element after index 0 is clamped at zero for any inputs whatsoever,
and hence every element (index 0 included) is non-negative whenever the
start weight itself is non-negative; index 0 is the unclamped start
weight, so a negative start weight appears negative in the trajectory. -/
theorem C7_trajectory_nonneg :
    (∀ (sex : String) (sw height : ℚ) (age : ℤ) (act : String) (intake : ℚ)
        (days : ℤ) (L : List ℚ),
      calculate_weight_loss sex sw height age act intake days = some L →
      ∀ x ∈ L.tail, 0 ≤ x) ∧
    (∀ (sex : String) (sw height : ℚ) (age : ℤ) (act : String) (intake : ℚ)
        (days : ℤ) (L : List ℚ), 0 ≤ sw →
      calculate_weight_loss sex sw height age act intake days = some L →
      ∀ x ∈ L, 0 ≤ x) := by
  have key : ∀ (sex : String) (sw height : ℚ) (age : ℤ) (act : String) (intake : ℚ)
      (days : ℤ) (L : List ℚ),
      calculate_weight_loss sex sw height age act intake days = some L →
      ∀ x ∈ L.tail, 0 ≤ x := by
    intro sex sw height age act intake days L hL x hx
    simp only [calculate_weight_loss, Option.map_eq_some'] at hL
    obtain ⟨l, hl, rfl⟩ := hL
    exact wlAux_nonneg sex height age act intake _ sw l hl x hx
  refine ⟨key, ?_⟩
  intro sex sw height age act intake days L hsw hL x hx
  have htail := key sex sw height age act intake days L hL
  simp only [calculate_weight_loss, Option.map_eq_some'] at hL
  obtain ⟨l, hl, rfl⟩ := hL
  rcases List.mem_cons.mp hx with rfl | hx2
  · exact hsw
  · exact htail x hx2

theorem C7_witness :
    (∀ x ∈ ([(0 : ℚ), 0] : List ℚ).tail, 0 ≤ x) ∧ (∀ x ∈ ([(0 : ℚ), 0] : List ℚ), 0 ≤ x) := by
  have heval : calculate_weight_loss "male" 0 70 30 "sedentary" 0 1 = some [0, 0] := by
    norm_num [calculate_weight_loss, wlAux, calculate_TDEE,
      activity_multipliers, BMR, pylower_male]
  exact ⟨C7_trajectory_nonneg.1 "male" 0 70 30 "sedentary" 0 1 [0, 0] heval,
    C7_trajectory_nonneg.2 "male" 0 70 30 "sedentary" 0 1 [0, 0] le_rfl heval⟩

/-- C7 fails as stated: with the (library-level) start weight −1 the
returned trajectory is [−1, 0], whose element at index 0 is negative. -/
theorem C7_counterexample :
    calculate_weight_loss "male" (-1) 70 30 "sedentary" 0 1 = some [-1, 0] ∧
    ((-1 : ℚ) < 0) := by
  refine ⟨?_, by norm_num⟩
  norm_num [calculate_weight_loss, wlAux, calculate_TDEE,
    activity_multipliers, BMR, pylower_male]

/-! ## Claim C8 -/

/-- C8 (amended): `calculate_weight_loss` performs no parameter
validation and never fails on bad parameters: with `days ≤ 0` it returns
the one-element trajectory `[start_weight]` (for any intake and even an
unrecognized activity level, since the loop body never runs), and for a
recognized activity level it succeeds for every intake (negative included)
and every day count, returning `days.toNat + 1` records. -/
theorem C8_no_parameter_validation :
    (∀ (sex : String) (sw height : ℚ) (age : ℤ) (act : String) (intake : ℚ)
        (days : ℤ), days ≤ 0 →
      calculate_weight_loss sex sw height age act intake days = some [sw]) ∧
    (∀ (sex : String) (sw height : ℚ) (age : ℤ) (act : String) (intake : ℚ)
        (days : ℤ), act ∈ valid_activity_levels →
      ∃ L, calculate_weight_loss sex sw height age act intake days = some L ∧
        L.length = days.toNat + 1) := by
  constructor
  · intro sex sw height age act intake days hd
    have h0 : days.toNat = 0 := Int.toNat_eq_zero.mpr hd
    simp [calculate_weight_loss, h0, wlAux]
  · intro sex sw height age act intake days ha
    obtain ⟨l, hl, hlen⟩ := wlAux_total sex height age act intake ha days.toNat sw
    exact ⟨sw :: l, by simp [calculate_weight_loss, hl], by simp [hlen]⟩

theorem C8_witness :
    calculate_weight_loss "male" 100 70 30 "sedentary" 3000 (-7) = some [100] ∧
    ∃ L, calculate_weight_loss "male" 100 70 30 "sedentary" (-100) 2 = some L ∧
      L.length = (2 : ℤ).toNat + 1 :=
  ⟨C8_no_parameter_validation.1 "male" 100 70 30 "sedentary" 3000 (-7) (by norm_num),
   C8_no_parameter_validation.2 "male" 100 70 30 "sedentary" (-100) 2 (by decide)⟩

/-- C8 fails as stated: invoked directly with `days = 0` and the negative
intake −100 (both invalid per the claim), the function does not fail — it
returns the trajectory `[100]`. -/
theorem C8_counterexample :
    calculate_weight_loss "male" 100 70 30 "sedentary" (-100) 0 = some [100] := by
  norm_num [calculate_weight_loss, wlAux]

/-! ## Goal simulator lemmas -/

/-- Exiting the loop above the goal happens only through the deficit
check: at the exit weight the recomputed TDEE is at most the candidate
intake. -/
theorem goalLoop_exit_above (sex : String) (height : ℚ) (age : ℤ) (act : String)
    (goal c : ℚ) :
    ∀ (fuel : ℕ) (w : ℚ) (d : ℕ) (w2 : ℚ) (d2 : ℕ),
      goalLoop sex height age act goal c fuel w d = some (w2, d2) → goal < w2 →
      ∃ T, calculate_TDEE sex w2 height age act = some T ∧ T - c ≤ 0 := by
  intro fuel
  induction fuel with
  | zero => intro w d w2 d2 h; simp [goalLoop] at h
  | succ fuel ih =>
    intro w d w2 d2 h hgw2
    by_cases hgw : goal < w
    · rw [goalLoop, if_pos hgw] at h
      cases hT : calculate_TDEE sex w height age act with
      | none => simp [hT] at h
      | some T =>
        simp only [hT] at h
        by_cases hd : T - c ≤ 0
        · rw [if_pos hd] at h
          simp only [Option.some.injEq, Prod.mk.injEq] at h
          obtain ⟨rfl, rfl⟩ := h
          exact ⟨T, hT, hd⟩
        · rw [if_neg hd] at h
          exact ih _ _ _ _ h hgw2
    · rw [goalLoop, if_neg hgw] at h
      simp only [Option.some.injEq, Prod.mk.injEq] at h
      obtain ⟨rfl, rfl⟩ := h
      exact absurd hgw2 hgw

/-- A candidate whose loop exits above the goal contributes nothing. -/
theorem candidateRecord_eq_nil (sex : String) (height : ℚ) (age : ℤ) (act : String)
    (goal c : ℚ) (fuel : ℕ) (sw w2 : ℚ) (d2 : ℕ)
    (h : goalLoop sex height age act goal c fuel sw 0 = some (w2, d2))
    (hgw2 : goal < w2) :
    candidateRecord sex height age act goal c fuel sw = some [] := by
  simp [candidateRecord, h, if_neg (not_le.mpr hgw2)]

/-- Every recorded scenario comes from some candidate's contribution. -/
theorem scenariosAux_mem (sex : String) (height : ℚ) (age : ℤ) (act : String)
    (goal : ℚ) (fuel : ℕ) (sw : ℚ) :
    ∀ (cs : List ℚ) (L : List (ℤ × ℕ)),
      scenariosAux sex height age act goal fuel sw cs = some L → ∀ s ∈ L,
      ∃ c ∈ cs, ∃ l, candidateRecord sex height age act goal c fuel sw = some l ∧
        s ∈ l := by
  intro cs
  induction cs with
  | nil =>
    intro L h s hs
    simp only [scenariosAux, Option.some.injEq] at h
    subst h
    simp at hs
  | cons c cs ih =>
    intro L h s hs
    cases h1 : candidateRecord sex height age act goal c fuel sw with
    | none => simp [scenariosAux, h1] at h
    | some l =>
      cases h2 : scenariosAux sex height age act goal fuel sw cs with
      | none => simp [scenariosAux, h1, h2] at h
      | some rest =>
        simp only [scenariosAux, h1, h2, Option.some.injEq] at h
        subst h
        rcases List.mem_append.mp hs with h3 | h3
        · exact ⟨c, List.mem_cons_self c cs, l, h1, h3⟩
        · obtain ⟨c2, hc2, l2, hl2, hs2⟩ := ih rest h2 s h3
          exact ⟨c2, List.mem_cons_of_mem c hc2, l2, hl2, hs2⟩

/-- A member of a candidate's contribution records the truncated intake
and a day count of a loop run that finished at or below the goal. -/
theorem candidateRecord_mem (sex : String) (height : ℚ) (age : ℤ) (act : String)
    (goal c : ℚ) (fuel : ℕ) (sw : ℚ) (l : List (ℤ × ℕ))
    (h : candidateRecord sex height age act goal c fuel sw = some l)
    (s : ℤ × ℕ) (hs : s ∈ l) :
    s.1 = pytrunc c ∧ ∃ w2 d2, goalLoop sex height age act goal c fuel sw 0 =
      some (w2, d2) ∧ w2 ≤ goal ∧ s.2 = d2 := by
  simp only [candidateRecord, Option.map_eq_some'] at h
  obtain ⟨⟨w2, d2⟩, hloop, rfl⟩ := h
  by_cases hle : w2 ≤ goal
  · simp only [if_pos hle, List.mem_singleton] at hs
    subst hs
    exact ⟨rfl, w2, d2, hloop, hle, rfl⟩
  · simp only [if_neg hle] at hs
    simp at hs

/-- When the very first day's deficit is non-positive, the loop exits
immediately with the start weight and day counter unchanged. -/
theorem goalLoop_break_first (sex : String) (height : ℚ) (age : ℤ) (act : String)
    (goal c : ℚ) (f : ℕ) (w0 : ℚ) (d : ℕ) (T : ℚ) (hgw : goal < w0)
    (hT : calculate_TDEE sex w0 height age act = some T) (hd : T - c ≤ 0) :
    goalLoop sex height age act goal c (f + 1) w0 d = some (w0, d) := by
  rw [goalLoop, if_pos hgw]
  simp only [hT, if_pos hd]

/-- A candidate strictly below the initial TDEE is non-negative: every
generated candidate other than the first is either `initial_TDEE - 500k`
with `500k ≤ int(initial_TDEE)` or the appended 0. -/
theorem daily_calories_scenarios_nonneg (T c : ℚ)
    (hc : c ∈ daily_calories_scenarios T) (hlt : c < T) : 0 ≤ c := by
  rw [daily_calories_scenarios] at hc
  rcases List.mem_append.mp hc with hmap | hzero
  · obtain ⟨k, hk, hck⟩ := List.mem_map.mp hmap
    have hkr : k < rangeLen (pytrunc T + 1) := List.mem_range.mp hk
    subst hck
    have hk1 : 1 ≤ k := by
      rcases Nat.eq_zero_or_pos k with rfl | h
      · simp at hlt
      · exact h
    have hk2 : (k + 1) * 500 ≤ (pytrunc T + 1).toNat + 499 := by
      have h1 := Nat.succ_le_of_lt hkr
      rw [rangeLen] at h1
      exact (Nat.le_div_iff_mul_le (by norm_num)).mp h1
    have hpt : 500 ≤ pytrunc T ∧ (500 : ℤ) * (k : ℤ) ≤ pytrunc T := by
      constructor <;> omega
    have hT0 : 0 ≤ T := by
      by_contra hneg
      push_neg at hneg
      have hceil : pytrunc T = ⌈T⌉ := by
        rw [pytrunc, if_neg (not_le.mpr hneg)]
      have hc0 : (⌈T⌉ : ℤ) ≤ 0 := Int.ceil_le.mpr (by exact_mod_cast hneg.le)
      omega
    have hfloor : pytrunc T = ⌊T⌋ := by rw [pytrunc, if_pos hT0]
    have hble : ((500 * (k : ℤ) : ℤ) : ℚ) ≤ T := by
      apply Int.le_floor.mp
      rw [← hfloor]
      exact hpt.2
    push_cast at hble
    linarith
  · rw [List.mem_singleton.mp hzero]

/-! ## Claim C2 -/

/-- C2 (amended): `calculate_days_to_goal_weight` performs no
precondition validation and has no failure path for a goal that is not
strictly below the start: when start_weight ≤ goal_weight every
candidate's loop exits immediately (weight unchanged, zero days), and the
function returns every candidate recorded with days_to_goal = 0. -/
theorem C2_no_goal_validation (sex : String) (sw goal height : ℚ) (age : ℤ)
    (act : String) (T : ℚ) (f : ℕ)
    (hT : calculate_TDEE sex sw height age act = some T) (hle : sw ≤ goal) :
    calculate_days_to_goal_weight sw goal sex height age act (f + 1) =
      some ((daily_calories_scenarios T).map (fun c => (pytrunc c, 0))) := by
  have hloop : ∀ c : ℚ, goalLoop sex height age act goal c (f + 1) sw 0 =
      some (sw, 0) := by
    intro c
    rw [goalLoop, if_neg (not_lt.mpr hle)]
  have hrec : ∀ c : ℚ, candidateRecord sex height age act goal c (f + 1) sw =
      some [(pytrunc c, 0)] := by
    intro c
    simp [candidateRecord, hloop c, hle]
  have haux : ∀ cs : List ℚ, scenariosAux sex height age act goal (f + 1) sw cs =
      some (cs.map (fun c => (pytrunc c, 0))) := by
    intro cs
    induction cs with
    | nil => rfl
    | cons c cs ih => simp [scenariosAux, hrec c, ih]
  rw [calculate_days_to_goal_weight]
  simp only [hT]
  exact haux _

theorem C2_witness :
    calculate_days_to_goal_weight 100 150 "male" 70 30 "sedentary" 1 =
      some [(1704, 0), (1204, 0), (704, 0), (204, 0), (0, 0)] := by
  have h := C2_no_goal_validation "male" 100 150 70 30 "sedentary" (37509 / 22) 0
    (by norm_num [calculate_TDEE, activity_multipliers, BMR, pylower_male])
    (by norm_num)
  rw [h]
  norm_num [daily_calories_scenarios, rangeLen, pytrunc, List.range_succ,
    List.range_zero]
  all_goals simp only [Int.reduceToNat, Nat.reduceDiv]
  all_goals norm_num [List.range_succ, List.range_zero]

set_option maxHeartbeats 4000000 in
set_option maxRecDepth 4000 in
/-- C2 fails as stated: with start_weight = goal_weight = 100 the
precondition start > goal > 0 does not hold, yet the function does not
fail — it returns every candidate with days_to_goal = 0. -/
theorem C2_counterexample :
    ¬((100 : ℚ) > 100) ∧
    calculate_days_to_goal_weight 100 100 "male" 70 30 "sedentary" 1 =
      some [(1704, 0), (1204, 0), (704, 0), (204, 0), (0, 0)] := by
  refine ⟨by norm_num, ?_⟩
  norm_num [calculate_days_to_goal_weight, calculate_TDEE, activity_multipliers,
    BMR, pylower_male, daily_calories_scenarios, rangeLen, pytrunc, scenariosAux,
    candidateRecord, goalLoop, List.range_succ, List.range_zero]
  all_goals simp only [Int.reduceToNat, Nat.reduceDiv]
  all_goals norm_num [List.range_succ, List.range_zero, scenariosAux,
    candidateRecord, goalLoop, pytrunc]

/-! ## Claim C4 -/

/-- For a non-negative initial TDEE the generated candidate count equals
the spec's count. -/
theorem rangeLen_eq_spec (T : ℚ) (hT : 0 ≤ T) :
    rangeLen (pytrunc T + 1) = (⌊T / 500⌋).toNat + 1 := by
  have hfloor : pytrunc T = ⌊T⌋ := by rw [pytrunc, if_pos hT]
  have ht0 : 0 ≤ ⌊T⌋ := Int.le_floor.mpr (by exact_mod_cast hT)
  have h1 : (⌊T⌋ + 1).toNat = ⌊T⌋.toNat + 1 := by omega
  have h2 : ⌊T / 500⌋.toNat = ⌊T⌋.toNat / 500 := by
    rw [Int.floor_toNat, Int.floor_toNat]
    exact Nat.floor_div_ofNat T 500
  rw [hfloor, rangeLen, h1, h2]
  omega

/-- C4 (amended): the candidate intake list equals the spec's sequence
(initial_expenditure − 500·k while ≥ 0, then an appended 0, in this
order, duplicates kept) whenever the initial expenditure is ≥ 0, and also
when it is ≤ −1; only for an initial expenditure strictly between −1 and
0 do the two differ, the code then emitting the negative initial
candidate because Python `int()` truncates toward zero. -/
theorem C4_candidate_list (sex : String) (sw height : ℚ) (age : ℤ) (act : String)
    (T : ℚ) (hT : calculate_TDEE sex sw height age act = some T)
    (hr : 0 ≤ T ∨ T ≤ -1) :
    daily_calories_scenarios T = specCandidateIntakes T := by
  rcases hr with h0 | h1
  · rw [daily_calories_scenarios, specCandidateIntakes, if_pos h0,
      rangeLen_eq_spec T h0]
  · have hc : pytrunc T = ⌈T⌉ := by
      rw [pytrunc, if_neg (not_le.mpr (by linarith))]
    have hce : ⌈T⌉ ≤ -1 := Int.ceil_le.mpr (by exact_mod_cast h1)
    have hzero : rangeLen (pytrunc T + 1) = 0 := by
      rw [hc, rangeLen]
      have h2 : (⌈T⌉ + 1).toNat = 0 := by omega
      rw [h2]
    have hzero2 : (if 0 ≤ T then (⌊T / 500⌋).toNat + 1 else 0) = 0 :=
      if_neg (by linarith)
    rw [daily_calories_scenarios, specCandidateIntakes, hzero, hzero2]

theorem C4_witness :
    daily_calories_scenarios (4719 / 2) = specCandidateIntakes (4719 / 2) :=
  C4_candidate_list "male" 220 70 30 "sedentary" (4719 / 2)
    (by norm_num [calculate_TDEE, activity_multipliers, BMR, pylower_male])
    (Or.inl (by norm_num))

/-- C4 fails as stated: the valid profile (female, height 8, age 1,
sedentary) at weight 5093/600 has initial TDEE −1/2, and the code's
candidate list is [−1/2, 0] — it contains the negative candidate −1/2 —
while the spec's sequence is [0]. -/
theorem C4_counterexample :
    calculate_TDEE "female" (5093 / 600) 8 1 "sedentary" = some (-1 / 2) ∧
    daily_calories_scenarios (-1 / 2) = [-1 / 2, 0] ∧
    specCandidateIntakes (-1 / 2) = [0] ∧
    ([(-1 / 2 : ℚ), 0] ≠ ([0] : List ℚ)) := by
  refine ⟨?_, ?_, ?_, by simp⟩
  · norm_num [calculate_TDEE, activity_multipliers, BMR, pylower_female]
    decide
  · have hpt : pytrunc (-1 / 2 : ℚ) = 0 := by
      rw [pytrunc, if_neg (by norm_num)]
      norm_num
    rw [daily_calories_scenarios, hpt]
    norm_num [rangeLen, List.range_succ, List.range_zero]
    all_goals simp only [Int.reduceToNat, Nat.reduceDiv]
    all_goals norm_num [List.range_succ, List.range_zero]
  · norm_num [specCandidateIntakes]

/-! ## Claim C5 -/

/-- C5: under start_weight > goal_weight, no recorded scenario has a
negative days_to_goal, and a candidate whose loop exits above the goal —
which happens exactly through the non-positive-deficit abort, the TDEE
recomputed at the exit weight being at most the candidate intake —
contributes nothing to the result list. -/
theorem C5_nonconvergent_excluded (sex : String) (sw goal height : ℚ) (age : ℤ)
    (act : String) (fuel : ℕ) (L : List (ℤ × ℕ)) (hgw : goal < sw)
    (hL : calculate_days_to_goal_weight sw goal sex height age act fuel = some L) :
    (∀ s ∈ L, (0 : ℤ) ≤ (s.2 : ℤ)) ∧
    (∀ (c w2 : ℚ) (d2 : ℕ),
      goalLoop sex height age act goal c fuel sw 0 = some (w2, d2) → goal < w2 →
      (∃ T, calculate_TDEE sex w2 height age act = some T ∧ T - c ≤ 0) ∧
      candidateRecord sex height age act goal c fuel sw = some []) := by
  refine ⟨fun s _ => Int.natCast_nonneg s.2, fun c w2 d2 hloop hg2 => ⟨?_, ?_⟩⟩
  · exact goalLoop_exit_above sex height age act goal c fuel sw 0 w2 d2 hloop hg2
  · exact candidateRecord_eq_nil sex height age act goal c fuel sw w2 d2 hloop hg2

set_option maxHeartbeats 4000000 in
set_option maxRecDepth 4000 in
theorem C5_witness :
    (∀ s ∈ ([(1859, 8), (1359, 4), (859, 3), (359, 2), (0, 2)] : List (ℤ × ℕ)),
      (0 : ℤ) ≤ (s.2 : ℤ)) ∧
    ((∃ T, calculate_TDEE "male" 220 70 30 "sedentary" = some T ∧
        T - 4719 / 2 ≤ 0) ∧
      candidateRecord "male" 70 30 "sedentary" 219 (4719 / 2) 10 220 = some []) := by
  have heval : calculate_days_to_goal_weight 220 219 "male" 70 30 "sedentary" 10 =
      some [(1859, 8), (1359, 4), (859, 3), (359, 2), (0, 2)] := by
    norm_num [calculate_days_to_goal_weight, calculate_TDEE, activity_multipliers,
      BMR, pylower_male, daily_calories_scenarios, rangeLen, pytrunc, scenariosAux,
      candidateRecord, goalLoop, List.range_succ, List.range_zero]
  have hloop : goalLoop "male" 70 30 "sedentary" 219 (4719 / 2) 10 220 0 =
      some (220, 0) := by
    norm_num [goalLoop, calculate_TDEE, activity_multipliers, BMR, pylower_male]
  have h := C5_nonconvergent_excluded "male" 220 219 70 30 "sedentary" 10 _
    (by norm_num) heval
  exact ⟨h.1, h.2 (4719 / 2) 220 0 hloop (by norm_num)⟩

/-! ## Claim C6 -/

/-- C6 (amended): the recorded daily_calories of every scenario a
candidate contributes is `int(candidate)` — truncation toward zero (the
floor, for the non-negative candidates) — not round-to-nearest, from
which it differs when the candidate's fractional part is one half or
more. -/
theorem C6_recorded_intake_is_pytrunc (sex : String) (height : ℚ) (age : ℤ)
    (act : String) (goal c : ℚ) (fuel : ℕ) (sw : ℚ) (l : List (ℤ × ℕ))
    (h : candidateRecord sex height age act goal c fuel sw = some l) :
    ∀ s ∈ l, s.1 = pytrunc c :=
  fun s hs => (candidateRecord_mem sex height age act goal c fuel sw l h s hs).1

set_option maxHeartbeats 4000000 in
set_option maxRecDepth 4000 in
theorem C6_witness : (1859 : ℤ) = pytrunc (3719 / 2) :=
  C6_recorded_intake_is_pytrunc "male" 70 30 "sedentary" 219 (3719 / 2) 10 220
    [(1859, 8)]
    (by norm_num [candidateRecord, goalLoop, calculate_TDEE, activity_multipliers,
      BMR, pylower_male, pytrunc])
    (1859, 8) (by simp)

set_option maxHeartbeats 4000000 in
set_option maxRecDepth 4000 in
/-- C6 fails as stated: the candidate 3719/2 = 1859.5 converges (8 days,
for the male/70/30/sedentary profile from 220 lb to 219 lb) and is
recorded as 1859 = int(1859.5), while round(1859.5) = 1860. -/
theorem C6_counterexample :
    candidateRecord "male" 70 30 "sedentary" 219 (3719 / 2) 10 220 =
      some [(1859, 8)] ∧
    spec_round (3719 / 2) = 1860 ∧ ((1859 : ℤ) ≠ 1860) := by
  refine ⟨?_, ?_, by norm_num⟩
  · norm_num [candidateRecord, goalLoop, calculate_TDEE, activity_multipliers,
      BMR, pylower_male, pytrunc]
  · norm_num [spec_round]

/-! ## Claim C10 -/

/-- C10: with start_weight above goal_weight, the first candidate — the
intake equal to the initial TDEE — always exits on day 0 through the
zero-deficit abort and is excluded from the scenarios, and every recorded
scenario's daily calorie intake is strictly below the initial TDEE. -/
theorem C10_first_candidate_excluded (sex : String) (sw goal height : ℚ)
    (age : ℤ) (act : String) (f : ℕ) (T : ℚ) (hgw : goal < sw)
    (hT : calculate_TDEE sex sw height age act = some T) :
    candidateRecord sex height age act goal T (f + 1) sw = some [] ∧
    (∀ L, calculate_days_to_goal_weight sw goal sex height age act (f + 1) =
        some L → ∀ s ∈ L, ((s.1 : ℚ) < T)) := by
  have hbreak := goalLoop_break_first sex height age act goal T f sw 0 T hgw hT
    (by norm_num)
  constructor
  · exact candidateRecord_eq_nil sex height age act goal T (f + 1) sw sw 0
      hbreak hgw
  · intro L hL s hs
    rw [calculate_days_to_goal_weight] at hL
    simp only [hT] at hL
    obtain ⟨c, hc, l, hcr, hsl⟩ :=
      scenariosAux_mem sex height age act goal (f + 1) sw _ L hL s hs
    obtain ⟨hs1, w2, d2, hloop, hw2, hs2⟩ :=
      candidateRecord_mem sex height age act goal c (f + 1) sw l hcr s hsl
    have hcT : c < T := by
      by_contra hge
      push_neg at hge
      have hb := goalLoop_break_first sex height age act goal c f sw 0 T hgw hT
        (by linarith)
      rw [hb] at hloop
      simp only [Option.some.injEq, Prod.mk.injEq] at hloop
      obtain ⟨h1, h2⟩ := hloop
      rw [← h1] at hw2
      exact absurd hw2 (not_le.mpr hgw)
    have h0c : 0 ≤ c := daily_calories_scenarios_nonneg T c hc hcT
    have hfl : ((pytrunc c : ℤ) : ℚ) ≤ c := by
      rw [pytrunc, if_pos h0c]
      exact_mod_cast Int.floor_le c
    rw [hs1]
    linarith

set_option maxHeartbeats 4000000 in
set_option maxRecDepth 4000 in
theorem C10_witness :
    candidateRecord "male" 70 30 "sedentary" 219 (4719 / 2) 10 220 = some [] ∧
    (∀ s ∈ ([(1859, 8), (1359, 4), (859, 3), (359, 2), (0, 2)] : List (ℤ × ℕ)),
      ((s.1 : ℚ) < 4719 / 2)) := by
  have h := C10_first_candidate_excluded "male" 220 219 70 30 "sedentary" 9
    (4719 / 2) (by norm_num)
    (by norm_num [calculate_TDEE, activity_multipliers, BMR, pylower_male])
  refine ⟨h.1, h.2 _ ?_⟩
  norm_num [calculate_days_to_goal_weight, calculate_TDEE, activity_multipliers,
    BMR, pylower_male, daily_calories_scenarios, rangeLen, pytrunc, scenariosAux,
    candidateRecord, goalLoop, List.range_succ, List.range_zero]

end Mifflin
